import Mathlib

/-!
Verification of the VC-2 reference stream decoder (DecodeStream.cpp).

The development embeds the decode loop of main() as a step function over an
explicit decoder state together with a trace of effects (diagnostics, the
inverse-quantisation and inverse-wavelet stages, and writes to the output
file).  Numeric helpers that main() computes inline (the output byte width,
the low-delay compressed byte budget, and the clip bounds) are embedded as
separate definitions.  Code of the repository that DecodeStream.cpp only
calls (slice reading, sample packing, even slice-byte distribution, frame
field assembly) is modelled from the specification where a claim needs it;
each such definition says so in its doc comment.
-/

/-- Chroma formats (ColourFormat in the source; UNKNOWN is the pre-header
value assigned at DecodeStream.cpp line 144). -/
inductive ColourFormat
  | C444
  | C422
  | C420
  | RGB
  | UNKNOWN
deriving DecidableEq

/-- Wavelet kernels (WaveletKernel enum of the source). -/
inductive WaveletKernel
  | DD97
  | LeGall
  | DD137
  | Haar0
  | Haar1
  | Fidelity
  | Daub97
deriving DecidableEq

/-- Output selector of the decoder (Output enum used by DecodeStream.cpp:
transform, quantised, indices or the decoded image). -/
inductive Output
  | TRANSFORM
  | QUANTISED
  | INDICES
  | DECODED
deriving DecidableEq

/-- The two inverse-quantiser variants the decoder selects between:
inverse_quantise_transform (low delay, with the extra mid-tread offset) and
inverse_quantise_transform_np (high quality, plain dead-zone form). -/
inductive IQVariant
  | ldOffset
  | np
deriving DecidableEq

/-- Sequence header fields that main() keeps (DecodeStream.cpp lines
189-195; frameRate is only logged and is omitted). -/
structure SequenceHeader where
  height : Nat
  width : Nat
  chromaFormat : ColourFormat
  interlace : Bool
  topFieldFirst : Bool
  bitdepth : Nat
deriving DecidableEq

/-- Picture preamble fields that main() reads (DecodeStream.cpp lines
214-231 and 372-390).  The informational HQ slice prefix is only logged by
main() and is omitted here. -/
structure PicturePreamble where
  picture_number : Nat
  wavelet_kernel : WaveletKernel
  depth : Nat
  slices_x : Nat
  slices_y : Nat
  slice_bytes_num : Nat
  slice_bytes_den : Nat
  slice_size_scalar : Nat
deriving DecidableEq

/-- A picture data unit as seen by main() after the external parsing code
has run: the preamble, whether the slice read left the stream good (the
du.stream() check at lines 272 and 430), and the per-slice quantisation
indices in raster slice order (Slices.qIndices).  The coefficient data
itself is decided by code outside src/ and no claim depends on its values,
so it is not carried here. -/
structure PicturePayload where
  preamble : PicturePreamble
  readOk : Bool
  qIndices : List Nat
deriving DecidableEq

/-- Data units dispatched by the switch at DecodeStream.cpp line 173.
AUX_DATA, PADDING and unrecognised parse codes all reach the default label
and are skipped. -/
inductive DataUnit
  | seqHeader (h : SequenceHeader)
  | endOfSequence
  | auxData
  | padding
  | ldPicture (p : PicturePayload)
  | hqPicture (p : PicturePayload)
  | unknown
deriving DecidableEq

/-- Format data remembered for the pending output frame: the frameFormat
(height, width, chromaFormat) and topFieldFirst passed to the Frame
constructor at DecodeStream.cpp lines 330-331 and 488-489. -/
structure FrameInfo where
  height : Nat
  width : Nat
  chromaFormat : ColourFormat
  topFieldFirst : Bool
deriving DecidableEq

/-- The mutable state of main()'s decode loop (DecodeStream.cpp lines
134-156).  pendingFrame models the boost scoped_ptr outFrame: none is the
null pointer it starts with. -/
structure DecState where
  frame : Nat
  pic : Nat
  have_seq_hdr : Bool
  height : Nat
  width : Nat
  chromaFormat : ColourFormat
  bytes : Nat
  lumaDepth : Nat
  chromaDepth : Nat
  interlaced : Bool
  topFieldFirst : Bool
  kernel : WaveletKernel
  waveletDepth : Nat
  ySlices : Nat
  xSlices : Nat
  compressedBytes : Nat
  sliceScalar : Nat
  pendingFrame : Option FrameInfo
deriving DecidableEq

/-- Initial state of the loop.  kernel, waveletDepth, ySlices, xSlices,
compressedBytes and sliceScalar are declared without initialisers in the
source (lines 150-155) and are indeterminate until the first picture
assigns them; the values used here are arbitrary stand-ins.  The remaining
fields are the explicit initialisations at lines 134-156. -/
def initState : DecState :=
  { frame := 0
    pic := 0
    have_seq_hdr := false
    height := 0
    width := 0
    chromaFormat := .UNKNOWN
    bytes := 0
    lumaDepth := 0
    chromaDepth := 0
    interlaced := false
    topFieldFirst := false
    kernel := .LeGall
    waveletDepth := 0
    ySlices := 0
    xSlices := 0
    compressedBytes := 0
    sliceScalar := 0
    pendingFrame := none }

/-- Effects of one loop iteration: diagnostics printed to the log streams,
the processing stages performed, and writes to the output file.  Routine
verbose progress logging is not recorded; the two diagnostics that the
claims mention are. -/
inductive Ev
  | diag (msg : String)
  | iq (v : IQVariant)
  | iwt
  | writeIndices (bs : List Nat)
  | writeQuantised
  | writeTransform
  | writeDecoded (nbytes lumaDepth chromaDepth : Nat)
deriving DecidableEq

/-- Whether an effect is a write to the output file (as opposed to a log
message or an internal processing stage). -/
def Ev.isFileWrite : Ev → Bool
  | .writeIndices _ => true
  | .writeQuantised => true
  | .writeTransform => true
  | .writeDecoded _ _ _ => true
  | _ => false

/-- The inverse-quantiser invocations recorded in a trace, in order. -/
def iqTrace (evs : List Ev) : List IQVariant :=
  evs.filterMap (fun e =>
    match e with
    | .iq v => some v
    | _ => none)

/-- Control result of one loop iteration. -/
inductive StepCtl
  | next
  | exitOk
  | crash
deriving DecidableEq

/-- Run outcome of a whole decode: a process exit code, or undefined
behaviour from dereferencing the null outFrame pointer. -/
inductive RunResult
  | exited (code : Nat)
  | crashed
deriving DecidableEq

/-- Diagnostic printed when a picture arrives before any sequence header
(DecodeStream.cpp lines 235 and 394). -/
def noSeqHdrMsg : String := "Cannot decode frame, no previous sequence header!"

/-- Diagnostic printed when the slice read leaves the stream bad
(DecodeStream.cpp lines 273 and 431). -/
def readFailMsg : String := "Failed to read compressed frame"

/-- Output byte width chosen from the sequence header bitdepth
(DecodeStream.cpp lines 197-200): 1 byte exactly when bitdepth == 8,
otherwise 2 bytes. -/
def bytesForBitdepth (bitdepth : Nat) : Nat :=
  if bitdepth = 8 then 1 else 2

/-- Compressed byte budget of a low-delay picture (DecodeStream.cpp line
231): integer (floor) division of numerator*slices_y*slices_x by the
denominator. -/
def compressedBytesLD (num den y x : Nat) : Nat :=
  num * y * x / den

/-- Modelled from the spec: the slice_bytes distribution (Slices.cpp, not
under src/), which spreads a byte total evenly across the n slices of a
picture; slice i receives the i-th difference of the cumulative shares. -/
def sliceBytesAt (total n i : Nat) : Nat :=
  (i + 1) * total / n - i * total / n

/-- Modelled from the spec: the arrayio 1 byte per sample unsigned write
used for the qIndices diagnostic output (arrayio is not under src/); each
index is stored in one byte. -/
def bytesOfQIndices (qs : List Nat) : List Nat :=
  qs.map (fun q => q % 256)

/-- State updates performed by the LD_PICTURE case before the sequence
header check (DecodeStream.cpp lines 227-231). -/
def ldAssign (st : DecState) (pre : PicturePreamble) : DecState :=
  { st with
    ySlices := pre.slices_y
    xSlices := pre.slices_x
    waveletDepth := pre.depth
    kernel := pre.wavelet_kernel
    compressedBytes :=
      compressedBytesLD pre.slice_bytes_num pre.slice_bytes_den
        pre.slices_y pre.slices_x }

/-- State updates performed by the HQ_PICTURE case before the sequence
header check (DecodeStream.cpp lines 386-390). -/
def hqAssign (st : DecState) (pre : PicturePreamble) : DecState :=
  { st with
    ySlices := pre.slices_y
    xSlices := pre.slices_x
    waveletDepth := pre.depth
    kernel := pre.wavelet_kernel
    sliceScalar := pre.slice_size_scalar }

/-- Body shared verbatim by the LD_PICTURE and HQ_PICTURE cases after their
preamble assignments (DecodeStream.cpp lines 234-366 and 393-525); the two
cases differ only in the slice-read mode (captured by the payload) and in
which inverse-quantiser variant they invoke (line 308 calls
inverse_quantise_transform, line 466 calls inverse_quantise_transform_np).
Output writes are modelled as always succeeding (the exit paths on a bad
outStream are not claims at issue). -/
def pictureBody (iqv : IQVariant) (output : Output) (st : DecState)
    (p : PicturePayload) : DecState × List Ev × StepCtl :=
  if st.have_seq_hdr = false then
    -- lines 234-236 / 393-395: skip the picture with a diagnostic
    (st, [.diag noSeqHdrMsg], .next)
  else if p.readOk = false then
    -- lines 272-275 / 430-433: slice read failed, continue the loop
    (st, [.diag readFailMsg], .next)
  else if output = .INDICES then
    -- lines 282-292 / 440-450: write qIndices, skip the rest
    (st, [.writeIndices (bytesOfQIndices p.qIndices)], .next)
  else if output = .QUANTISED then
    -- lines 294-304 / 452-462
    (st, [.writeQuantised], .next)
  else if output = .TRANSFORM then
    -- lines 307-320 / 464-478: inverse quantise, then dump coefficients
    (st, [.iq iqv, .writeTransform], .next)
  else
    -- decoded output: inverse quantise (line 308/466), inverse wavelet
    -- transform (line 324/482), then copy into the output frame
    if st.interlaced then
      if st.pic = 0 then
        -- lines 329-335 / 487-493: first field, no output yet
        ({ st with
            pendingFrame := some
              ⟨st.height, st.width, st.chromaFormat, st.topFieldFirst⟩
            pic := st.pic + 1 },
         [.iq iqv, .iwt], .next)
      else
        match st.pendingFrame with
        | none =>
          -- outFrame->secondField on the null scoped_ptr
          (st, [.iq iqv, .iwt], .crash)
        | some _ =>
          -- lines 338-339 / 496-498 then clip and write (345-365 / 504-524)
          ({ st with pic := 0, frame := st.frame + 1 },
           [.iq iqv, .iwt,
            .writeDecoded st.bytes st.lumaDepth st.chromaDepth], .next)
    else
      match st.pendingFrame with
      | none =>
        -- line 342/501: outFrame->frame on the null scoped_ptr; outFrame
        -- is only ever reset inside the interlaced branch
        (st, [.iq iqv, .iwt], .crash)
      | some _ =>
        ({ st with frame := st.frame + 1 },
         [.iq iqv, .iwt,
          .writeDecoded st.bytes st.lumaDepth st.chromaDepth], .next)

/-- The picture payload seen by the LD_PICTURE case when execution falls
through from END_OF_SEQUENCE (no break after the if at lines 205-209): the
preamble read fails on the zero-length EOS payload, leaving the fields
indeterminate (zeros stand in here), and the subsequent slice read leaves
the stream bad. -/
def eosFallthroughPayload : PicturePayload :=
  { preamble :=
      { picture_number := 0
        wavelet_kernel := .LeGall
        depth := 0
        slices_x := 0
        slices_y := 0
        slice_bytes_num := 0
        slice_bytes_den := 0
        slice_size_scalar := 0 }
    readOk := false
    qIndices := [] }

/-- One iteration of the decode loop: the switch at DecodeStream.cpp line
173.  END_OF_SEQUENCE returns EXIT_SUCCESS only inside if (verbose); with
verbose false, control falls through into the LD_PICTURE case. -/
def decodeStep (verbose : Bool) (output : Output) (st : DecState) :
    DataUnit → DecState × List Ev × StepCtl
  | .seqHeader h =>
    -- lines 178-203
    ({ st with
        height := h.height
        width := h.width
        chromaFormat := h.chromaFormat
        interlaced := h.interlace
        topFieldFirst := h.topFieldFirst
        lumaDepth := h.bitdepth
        chromaDepth := h.bitdepth
        bytes := bytesForBitdepth h.bitdepth
        have_seq_hdr := true },
     [], .next)
  | .endOfSequence =>
    -- lines 205-209: the return EXIT_SUCCESS is guarded by if (verbose);
    -- otherwise execution continues into the LD_PICTURE case body
    if verbose then (st, [], .exitOk)
    else
      pictureBody .ldOffset output
        (ldAssign st eosFallthroughPayload.preamble) eosFallthroughPayload
  | .ldPicture p =>
    pictureBody .ldOffset output (ldAssign st p.preamble) p
  | .hqPicture p =>
    pictureBody .np output (hqAssign st p.preamble) p
  | .auxData => (st, [], .next)
  | .padding => (st, [], .next)
  | .unknown => (st, [], .next)

/-- The whole decode run over a stream of data units.  When the input is
exhausted the while loop breaks (line 160-163) and main() falls to the
final return EXIT_FAILURE at line 541, so a run that never sees a
terminating END_OF_SEQUENCE exits with code 1. -/
def decodeRun (verbose : Bool) (output : Output) :
    DecState → List DataUnit → RunResult × List Ev
  | _, [] => (.exited 1, [])
  | st, du :: rest =>
    match decodeStep verbose output st du with
    | (st2, evs, .next) =>
      let r := decodeRun verbose output st2 rest
      (r.1, evs ++ r.2)
    | (_, evs, .exitOk) => (.exited 0, evs)
    | (_, evs, .crash) => (.crashed, evs)

/-- Clip bound: the minimum sample value for bit depth d (DecodeStream.cpp
lines 347 and 349). -/
def yMinOf (d : Nat) : Int := -(2 ^ (d - 1))

/-- Clip bound: the maximum sample value for bit depth d (DecodeStream.cpp
lines 348 and 350). -/
def yMaxOf (d : Nat) : Int := 2 ^ (d - 1) - 1

/-- Modelled from the spec: the clip function applied to each sample
(clip() is not under src/); a value is clamped into the closed range
[lo, hi]. -/
def clipSample (v lo hi : Int) : Int := max lo (min v hi)

/-- Modelled from the spec: the pictureio offset-binary, left-justified
sample packing (not under src/): add the half-range offset and shift the
d significant bits to the most significant end of the sample word. -/
def storeSample (d nbytes : Nat) (v : Int) : Int :=
  (v + 2 ^ (d - 1)) * 2 ^ (8 * nbytes - d)

/-- A decoded output sample as written by main(): clipped first (lines
345-352 / 504-511), then packed offset-binary and left-justified (lines
354-359 / 513-518). -/
def writeDecodedSample (d nbytes : Nat) (v : Int) : Int :=
  storeSample d nbytes (clipSample v (yMinOf d) (yMaxOf d))

/-- Picture format triple (PictureFormat in the source: height, width and
chroma format). -/
structure PictureFormat where
  height : Nat
  width : Nat
  chromaFormat : ColourFormat
deriving DecidableEq

/-- Field-accumulation state of the interlaced assembly: no pending field,
or a first field held with its format. -/
inductive FieldState
  | empty
  | halfFilled (fmt : PictureFormat)
deriving DecidableEq

/-- Events of the field-accumulation machine. -/
inductive FieldEv
  | emitFrame (fmt : PictureFormat)
  | formatMismatch
deriving DecidableEq

/-- Modelled from the spec: interlaced field accumulation with
format-mismatch handling (the Frame field-assembly code is not under src/;
DecodeStream.cpp only calls firstField and secondField on it).  The first
picture of a frame is held as the first field; a second picture whose
format matches completes and emits the frame; a second picture whose
format disagrees raises FormatMismatch, drops the pending frame and resets
the accumulation to empty. -/
def fieldStep : FieldState → PictureFormat → FieldState × List FieldEv
  | .empty, fmt => (.halfFilled fmt, [])
  | .halfFilled f, fmt =>
    if fmt = f then (.empty, [.emitFrame f])
    else (.empty, [.formatMismatch])

/-- A concrete progressive 8-bit sequence header used in concrete runs. -/
def hdr16 : SequenceHeader :=
  { height := 16
    width := 16
    chromaFormat := .C420
    interlace := false
    topFieldFirst := false
    bitdepth := 8 }

/-- A concrete picture payload whose slice read succeeds. -/
def okPayload : PicturePayload :=
  { preamble :=
      { picture_number := 0
        wavelet_kernel := .LeGall
        depth := 1
        slices_x := 2
        slices_y := 2
        slice_bytes_num := 8
        slice_bytes_den := 1
        slice_size_scalar := 1 }
    readOk := true
    qIndices := [0, 0, 0, 0] }

/-- C1: the claim says END_OF_SEQUENCE terminates parsing with exit status
0 for every setting of the verbose flag.  Evaluating the embedded code on
the stream [SEQUENCE_HEADER, END_OF_SEQUENCE]: with verbose the run exits
0 as claimed, but without verbose the END_OF_SEQUENCE case falls through
into the LD_PICTURE case (the return EXIT_SUCCESS at line 208 is guarded
by if (verbose) and the case has no break), the EOS unit is processed as a
broken low-delay picture with a read-failure diagnostic, parsing
continues, and the run finally exits 1 at end of input (line 541). -/
theorem eos_termination_depends_on_verbose :
    decodeRun true Output.DECODED initState
        [DataUnit.seqHeader hdr16, DataUnit.endOfSequence] =
      (RunResult.exited 0, []) ∧
    decodeRun false Output.DECODED initState
        [DataUnit.seqHeader hdr16, DataUnit.endOfSequence] =
      (RunResult.exited 1, [Ev.diag readFailMsg]) := by
  exact ⟨rfl, rfl⟩

/-- C2: on a progressive stream (SEQUENCE_HEADER with interlace false,
then one HQ_PICTURE whose slices read correctly, decoded output), the
progressive branch at line 501 dereferences the outFrame scoped pointer,
which is still null because outFrame.reset only ever happens inside the
interlaced branch: the run crashes after the inverse quantise and inverse
wavelet stages instead of writing the frame. -/
theorem progressive_first_picture_null_frame :
    decodeRun true Output.DECODED initState
        [DataUnit.seqHeader hdr16, DataUnit.hqPicture okPayload] =
      (RunResult.crashed, [Ev.iq IQVariant.np, Ev.iwt]) := by
  exact rfl

/-- A sequence header with bitdepth 7, used to exhibit the byte-width
counterexample. -/
def hdrBitdepth7 : SequenceHeader :=
  { height := 16
    width := 16
    chromaFormat := .C420
    interlace := false
    topFieldFirst := false
    bitdepth := 7 }

/-- C4 counterexample: the claim says bitdepth ≤ 8 gives 1 byte per
sample, but the code tests bitdepth == 8 exactly (lines 197-200), so a
header with bitdepth 7 yields 2 bytes per sample, not 1. -/
theorem bytes_for_bitdepth7_counterexample :
    (decodeStep false Output.DECODED initState
        (DataUnit.seqHeader hdrBitdepth7)).1.bytes = 2 ∧
    ¬ (decodeStep false Output.DECODED initState
        (DataUnit.seqHeader hdrBitdepth7)).1.bytes = 1 ∧
    hdrBitdepth7.bitdepth ≤ 8 := by
  refine ⟨rfl, ?_, ?_⟩ <;> decide

/-- C4 amended: after parsing any sequence header, the output sample width
is 1 byte exactly when the header bitdepth equals 8, and 2 bytes for every
other bitdepth (in particular for all of 8 < bitdepth ≤ 16). -/
theorem bytes_for_bitdepth_rule (verbose : Bool) (output : Output)
    (st : DecState) (h : SequenceHeader) :
    (decodeStep verbose output st (DataUnit.seqHeader h)).1.bytes =
      if h.bitdepth = 8 then 1 else 2 := by
  rfl

/-- C5 counterexample: with slice-bytes fraction 3/2 and a 1 × 1 slice
grid, line 231 computes the byte budget by truncating integer division,
giving 1, whereas the claimed ceiling ⌈3·1·1/2⌉ is 2. -/
theorem ld_bytes_floor_counterexample :
    compressedBytesLD 3 2 1 1 = 1 ∧
    (3 * 1 * 1 + 2 - 1) / 2 = 2 ∧
    ¬ compressedBytesLD 3 2 1 1 = (3 * 1 * 1 + 2 - 1) / 2 := by
  refine ⟨rfl, rfl, ?_⟩; decide

/-- The cumulative byte share of the first i slices is monotone in i. -/
lemma sliceShare_mono (total n : Nat) :
    Monotone (fun i => i * total / n) := by
  intro i j hij
  exact Nat.div_le_div_right (Nat.mul_le_mul_right total hij)

/-- Each slice byte count is the floor of total/n, plus one exactly when
the running remainders wrap. -/
lemma sliceBytesAt_eq (total n i : Nat) (hn : 0 < n) :
    sliceBytesAt total n i =
      total / n + (if n ≤ i * total % n + total % n then 1 else 0) := by
  unfold sliceBytesAt
  have h1 : (i + 1) * total = i * total + total := by ring
  rw [h1, Nat.add_div hn, Nat.add_assoc, Nat.add_sub_cancel_left]

/-- C5 amended: the low-delay byte budget computed at line 231 is the
floor ⌊numerator × ySlices × xSlices / denominator⌋ (not the ceiling), and
the slice_bytes distribution spreads that total evenly: the per-slice byte
counts sum exactly to the total and each slice receives either
⌊total/nSlices⌋ or ⌊total/nSlices⌋ + 1 bytes. -/
theorem ld_bytes_floor_and_even (num den y x : Nat) (_hden : 0 < den)
    (hs : 0 < y * x) :
    compressedBytesLD num den y x = num * y * x / den ∧
    (Finset.range (y * x)).sum
        (sliceBytesAt (compressedBytesLD num den y x) (y * x)) =
      compressedBytesLD num den y x ∧
    ∀ i, i < y * x →
      compressedBytesLD num den y x / (y * x) ≤
          sliceBytesAt (compressedBytesLD num den y x) (y * x) i ∧
        sliceBytesAt (compressedBytesLD num den y x) (y * x) i ≤
          compressedBytesLD num den y x / (y * x) + 1 := by
  set t := compressedBytesLD num den y x with ht
  refine ⟨rfl, ?_, ?_⟩
  · have hsum : (Finset.range (y * x)).sum
        (fun i => (i + 1) * t / (y * x) - i * t / (y * x)) =
        (y * x) * t / (y * x) - 0 * t / (y * x) :=
      Finset.sum_range_tsub (sliceShare_mono t (y * x)) (y * x)
    have hcancel : (y * x) * t / (y * x) = t := Nat.mul_div_cancel_left t hs
    calc (Finset.range (y * x)).sum (sliceBytesAt t (y * x))
        = (Finset.range (y * x)).sum
            (fun i => (i + 1) * t / (y * x) - i * t / (y * x)) := rfl
      _ = (y * x) * t / (y * x) - 0 * t / (y * x) := hsum
      _ = t := by simp [hcancel]
  · intro i _
    rw [sliceBytesAt_eq t (y * x) i hs]
    constructor
    · exact Nat.le_add_right _ _
    · have hle :
          (if y * x ≤ i * t % (y * x) + t % (y * x) then 1 else 0) ≤ 1 := by
        split <;> decide
      exact Nat.add_le_add_left hle _

/-- C5 witness: the floor-and-even-distribution property at the concrete
input numerator 3, denominator 2, 2 × 2 slices. -/
theorem ld_bytes_floor_and_even_witness :
    compressedBytesLD 3 2 2 2 = 3 * 2 * 2 / 2 ∧
    (Finset.range (2 * 2)).sum
        (sliceBytesAt (compressedBytesLD 3 2 2 2) (2 * 2)) =
      compressedBytesLD 3 2 2 2 ∧
    ∀ i, i < 2 * 2 →
      compressedBytesLD 3 2 2 2 / (2 * 2) ≤
          sliceBytesAt (compressedBytesLD 3 2 2 2) (2 * 2) i ∧
        sliceBytesAt (compressedBytesLD 3 2 2 2) (2 * 2) i ≤
          compressedBytesLD 3 2 2 2 / (2 * 2) + 1 :=
  ld_bytes_floor_and_even 3 2 2 2 (by decide) (by decide)

/-- C3: every decoded output sample of bit depth d is clipped into
[-2^(d-1), 2^(d-1)-1] before being written, and the written value is the
clipped value plus the offset 2^(d-1), left-justified in the configured
number of bytes: it fits the sample word and its low 8·nbytes - d bits are
zero. -/
theorem clip_then_store_decoded_sample (v : Int) (d nbytes : Nat)
    (hd : 1 ≤ d) (hdb : d ≤ 8 * nbytes) :
    yMinOf d ≤ clipSample v (yMinOf d) (yMaxOf d) ∧
    clipSample v (yMinOf d) (yMaxOf d) ≤ yMaxOf d ∧
    writeDecodedSample d nbytes v =
      (clipSample v (yMinOf d) (yMaxOf d) + 2 ^ (d - 1)) *
        2 ^ (8 * nbytes - d) ∧
    0 ≤ writeDecodedSample d nbytes v ∧
    writeDecodedSample d nbytes v < 2 ^ (8 * nbytes) ∧
    (2 : Int) ^ (8 * nbytes - d) ∣ writeDecodedSample d nbytes v := by
  have hP : (0 : Int) < 2 ^ (d - 1) := pow_pos (by norm_num) _
  have hQ : (0 : Int) < 2 ^ (8 * nbytes - d) := pow_pos (by norm_num) _
  have hone : (1 : Int) ≤ 2 ^ (d - 1) := by
    simpa using Int.lt_iff_add_one_le.mp hP
  have h2d : (2 : Int) ^ (d - 1) * 2 = 2 ^ d := by
    rw [← pow_succ]
    congr 1
    omega
  have hpq : (2 : Int) ^ d * 2 ^ (8 * nbytes - d) = 2 ^ (8 * nbytes) := by
    rw [← pow_add]
    congr 1
    omega
  have hmin : yMinOf d = -(2 ^ (d - 1)) := rfl
  have hmax : yMaxOf d = 2 ^ (d - 1) - 1 := rfl
  have hlohi : yMinOf d ≤ yMaxOf d := by
    rw [hmin, hmax]
    linarith
  have hc1 : yMinOf d ≤ clipSample v (yMinOf d) (yMaxOf d) :=
    le_max_left _ _
  have hc2 : clipSample v (yMinOf d) (yMaxOf d) ≤ yMaxOf d :=
    max_le hlohi (min_le_right _ _)
  have hlow : 0 ≤ clipSample v (yMinOf d) (yMaxOf d) + 2 ^ (d - 1) := by
    linarith [hc1, hmin.le, hmin.ge]
  have hhigh : clipSample v (yMinOf d) (yMaxOf d) + 2 ^ (d - 1) ≤
      2 ^ (d - 1) * 2 - 1 := by
    linarith [hc2, hmax.le, hmax.ge]
  refine ⟨hc1, hc2, rfl, ?_, ?_, ?_⟩
  · exact mul_nonneg hlow hQ.le
  · show (clipSample v (yMinOf d) (yMaxOf d) + 2 ^ (d - 1)) *
        2 ^ (8 * nbytes - d) < 2 ^ (8 * nbytes)
    calc (clipSample v (yMinOf d) (yMaxOf d) + 2 ^ (d - 1)) *
          2 ^ (8 * nbytes - d)
        ≤ (2 ^ (d - 1) * 2 - 1) * 2 ^ (8 * nbytes - d) :=
          mul_le_mul_of_nonneg_right hhigh hQ.le
      _ = 2 ^ (d - 1) * 2 * 2 ^ (8 * nbytes - d) - 2 ^ (8 * nbytes - d) := by
          ring
      _ = 2 ^ (8 * nbytes) - 2 ^ (8 * nbytes - d) := by
          rw [h2d, hpq]
      _ < 2 ^ (8 * nbytes) := by linarith
  · exact dvd_mul_left _ _

/-- C3 witness: the clip-and-store property at the concrete sample 1000
with bit depth 8 stored in 1 byte. -/
theorem clip_then_store_decoded_sample_witness :
    yMinOf 8 ≤ clipSample 1000 (yMinOf 8) (yMaxOf 8) ∧
    clipSample 1000 (yMinOf 8) (yMaxOf 8) ≤ yMaxOf 8 ∧
    writeDecodedSample 8 1 1000 =
      (clipSample 1000 (yMinOf 8) (yMaxOf 8) + 2 ^ (8 - 1)) *
        2 ^ (8 * 1 - 8) ∧
    0 ≤ writeDecodedSample 8 1 1000 ∧
    writeDecodedSample 8 1 1000 < 2 ^ (8 * 1) ∧
    (2 : Int) ^ (8 * 1 - 8) ∣ writeDecodedSample 8 1 1000 :=
  clip_then_store_decoded_sample 1000 8 1 (by decide) (by decide)

/-- The inverse-quantiser variant used by the picture body on the decoded
output path is exactly the one it is invoked with, whatever the interlace,
field and pending-frame situation. -/
lemma pictureBody_iqTrace (iqv : IQVariant) (st : DecState)
    (p : PicturePayload) (hs : st.have_seq_hdr = true)
    (hr : p.readOk = true) :
    iqTrace (pictureBody iqv Output.DECODED st p).2.1 = [iqv] := by
  unfold pictureBody
  rw [hs, hr]
  cases hI : st.interlaced <;> cases hpf : st.pendingFrame <;>
    by_cases hp : st.pic = 0 <;>
      simp [hI, hpf, hp, iqTrace]

/-- C6: an LD_PICTURE is inverse-quantised with the
inverse_quantise_transform variant (the one with the extra mid-tread
offset, line 308), an HQ_PICTURE with inverse_quantise_transform_np (the
straight dead-zone variant, line 466): the trace of the decode step
records exactly one inverse-quantisation, with the profile-matched
variant. -/
theorem iq_variant_by_profile (verbose : Bool) (st : DecState)
    (p : PicturePayload) (hs : st.have_seq_hdr = true)
    (hr : p.readOk = true) :
    iqTrace (decodeStep verbose Output.DECODED st
        (DataUnit.ldPicture p)).2.1 = [IQVariant.ldOffset] ∧
    iqTrace (decodeStep verbose Output.DECODED st
        (DataUnit.hqPicture p)).2.1 = [IQVariant.np] := by
  constructor
  · exact pictureBody_iqTrace .ldOffset (ldAssign st p.preamble) p hs hr
  · exact pictureBody_iqTrace .np (hqAssign st p.preamble) p hs hr

/-- A state that has seen a sequence header (progressive, all other fields
as in the initial state). -/
def stReady : DecState := { initState with have_seq_hdr := true }

/-- C6 witness: the variant selection at a concrete ready state and
payload. -/
theorem iq_variant_by_profile_witness :
    iqTrace (decodeStep false Output.DECODED stReady
        (DataUnit.ldPicture okPayload)).2.1 = [IQVariant.ldOffset] ∧
    iqTrace (decodeStep false Output.DECODED stReady
        (DataUnit.hqPicture okPayload)).2.1 = [IQVariant.np] :=
  iq_variant_by_profile false stReady okPayload rfl rfl

/-- C7: when the second field of an interlaced frame arrives with a
picture format different from the first one, the accumulation raises
FormatMismatch, emits no frame (the pending half-filled frame is dropped)
and resets to the empty state. -/
theorem second_field_format_mismatch (f g : PictureFormat) (hne : g ≠ f) :
    fieldStep (FieldState.halfFilled f) g =
      (FieldState.empty, [FieldEv.formatMismatch]) := by
  unfold fieldStep
  simp [hne]

/-- C7 witness: a 32-row second field after a 16-row first field. -/
theorem second_field_format_mismatch_witness :
    fieldStep (FieldState.halfFilled ⟨16, 16, ColourFormat.C420⟩)
        ⟨32, 16, ColourFormat.C420⟩ =
      (FieldState.empty, [FieldEv.formatMismatch]) :=
  second_field_format_mismatch ⟨16, 16, ColourFormat.C420⟩
    ⟨32, 16, ColourFormat.C420⟩ (by decide)

/-- C8: an LD_PICTURE or HQ_PICTURE met before any sequence header is
skipped: the step emits only the diagnostic message, writes nothing,
leaves the frame counter unchanged and continues the loop. -/
theorem picture_before_header_skipped (verbose : Bool) (output : Output)
    (st : DecState) (p : PicturePayload) (hs : st.have_seq_hdr = false) :
    (decodeStep verbose output st (DataUnit.ldPicture p)).2.1 =
        [Ev.diag noSeqHdrMsg] ∧
    (decodeStep verbose output st (DataUnit.ldPicture p)).2.2 =
        StepCtl.next ∧
    (decodeStep verbose output st (DataUnit.ldPicture p)).1.frame =
        st.frame ∧
    (decodeStep verbose output st (DataUnit.hqPicture p)).2.1 =
        [Ev.diag noSeqHdrMsg] ∧
    (decodeStep verbose output st (DataUnit.hqPicture p)).2.2 =
        StepCtl.next ∧
    (decodeStep verbose output st (DataUnit.hqPicture p)).1.frame =
        st.frame := by
  simp [decodeStep, pictureBody, ldAssign, hqAssign, hs]

/-- C8 witness: the skip at the initial state, which has no header yet. -/
theorem picture_before_header_skipped_witness :
    (decodeStep false Output.DECODED initState
        (DataUnit.ldPicture okPayload)).2.1 = [Ev.diag noSeqHdrMsg] ∧
    (decodeStep false Output.DECODED initState
        (DataUnit.ldPicture okPayload)).2.2 = StepCtl.next ∧
    (decodeStep false Output.DECODED initState
        (DataUnit.ldPicture okPayload)).1.frame = initState.frame ∧
    (decodeStep false Output.DECODED initState
        (DataUnit.hqPicture okPayload)).2.1 = [Ev.diag noSeqHdrMsg] ∧
    (decodeStep false Output.DECODED initState
        (DataUnit.hqPicture okPayload)).2.2 = StepCtl.next ∧
    (decodeStep false Output.DECODED initState
        (DataUnit.hqPicture okPayload)).1.frame = initState.frame :=
  picture_before_header_skipped false Output.DECODED initState okPayload rfl

/-- C9: with the indices diagnostic output selected, a successfully read
picture produces exactly one output write, the per-slice qIndex values as
unsigned 1-byte samples in raster slice order; nothing else is emitted (no
inverse quantisation, transform or decoded output) and the frame counter
is unchanged. -/
theorem indices_output_short_circuit (verbose : Bool) (st : DecState)
    (p : PicturePayload) (hs : st.have_seq_hdr = true)
    (hr : p.readOk = true) :
    (decodeStep verbose Output.INDICES st (DataUnit.ldPicture p)).2.1 =
        [Ev.writeIndices (bytesOfQIndices p.qIndices)] ∧
    (decodeStep verbose Output.INDICES st (DataUnit.ldPicture p)).2.2 =
        StepCtl.next ∧
    (decodeStep verbose Output.INDICES st (DataUnit.ldPicture p)).1.frame =
        st.frame ∧
    (decodeStep verbose Output.INDICES st (DataUnit.hqPicture p)).2.1 =
        [Ev.writeIndices (bytesOfQIndices p.qIndices)] ∧
    (decodeStep verbose Output.INDICES st (DataUnit.hqPicture p)).2.2 =
        StepCtl.next ∧
    (decodeStep verbose Output.INDICES st (DataUnit.hqPicture p)).1.frame =
        st.frame := by
  simp [decodeStep, pictureBody, ldAssign, hqAssign, hs, hr]

/-- C9 witness: the indices short-circuit at a concrete ready state, with
qIndices [0, 0, 0, 0]. -/
theorem indices_output_short_circuit_witness :
    (decodeStep false Output.INDICES stReady
        (DataUnit.ldPicture okPayload)).2.1 =
      [Ev.writeIndices (bytesOfQIndices okPayload.qIndices)] ∧
    (decodeStep false Output.INDICES stReady
        (DataUnit.ldPicture okPayload)).2.2 = StepCtl.next ∧
    (decodeStep false Output.INDICES stReady
        (DataUnit.ldPicture okPayload)).1.frame = stReady.frame ∧
    (decodeStep false Output.INDICES stReady
        (DataUnit.hqPicture okPayload)).2.1 =
      [Ev.writeIndices (bytesOfQIndices okPayload.qIndices)] ∧
    (decodeStep false Output.INDICES stReady
        (DataUnit.hqPicture okPayload)).2.2 = StepCtl.next ∧
    (decodeStep false Output.INDICES stReady
        (DataUnit.hqPicture okPayload)).1.frame = stReady.frame :=
  indices_output_short_circuit false stReady okPayload rfl rfl

/-- C10: in an interlaced sequence, the first field of a frame produces no
output-file write and leaves the frame counter unchanged, only storing the
pending frame and advancing the field counter; the second field produces
the single decoded-frame write and increments the frame counter. -/
theorem interlaced_field_accumulation (verbose : Bool) (st : DecState)
    (p : PicturePayload) (hs : st.have_seq_hdr = true)
    (hi : st.interlaced = true) (hr : p.readOk = true) :
    (st.pic = 0 →
      (decodeStep verbose Output.DECODED st
            (DataUnit.ldPicture p)).2.1.filter Ev.isFileWrite = [] ∧
      (decodeStep verbose Output.DECODED st
            (DataUnit.ldPicture p)).1.frame = st.frame ∧
      (decodeStep verbose Output.DECODED st
            (DataUnit.ldPicture p)).1.pic = st.pic + 1 ∧
      (decodeStep verbose Output.DECODED st
            (DataUnit.ldPicture p)).1.pendingFrame =
          some ⟨st.height, st.width, st.chromaFormat, st.topFieldFirst⟩ ∧
      (decodeStep verbose Output.DECODED st
            (DataUnit.ldPicture p)).2.2 = StepCtl.next) ∧
    (∀ f, st.pic ≠ 0 → st.pendingFrame = some f →
      (decodeStep verbose Output.DECODED st
            (DataUnit.ldPicture p)).2.1.filter Ev.isFileWrite =
          [Ev.writeDecoded st.bytes st.lumaDepth st.chromaDepth] ∧
      (decodeStep verbose Output.DECODED st
            (DataUnit.ldPicture p)).1.frame = st.frame + 1 ∧
      (decodeStep verbose Output.DECODED st
            (DataUnit.ldPicture p)).1.pic = 0 ∧
      (decodeStep verbose Output.DECODED st
            (DataUnit.ldPicture p)).2.2 = StepCtl.next) := by
  constructor
  · intro hp
    simp [decodeStep, pictureBody, ldAssign, hs, hr, hi, hp, Ev.isFileWrite]
  · intro f hp hpf
    simp [decodeStep, pictureBody, ldAssign, hs, hr, hi, hp, hpf,
      Ev.isFileWrite]

/-- A ready interlaced state awaiting the first field of a frame. -/
def stFieldZero : DecState :=
  { initState with have_seq_hdr := true, interlaced := true }

/-- A ready interlaced state holding a first field and awaiting the
second. -/
def stFieldOne : DecState :=
  { initState with
      have_seq_hdr := true
      interlaced := true
      pic := 1
      pendingFrame := some ⟨0, 0, ColourFormat.UNKNOWN, false⟩ }

/-- C10 witness: both field steps at concrete interlaced states. -/
theorem interlaced_field_accumulation_witness :
    ((decodeStep false Output.DECODED stFieldZero
          (DataUnit.ldPicture okPayload)).2.1.filter Ev.isFileWrite = [] ∧
     (decodeStep false Output.DECODED stFieldZero
          (DataUnit.ldPicture okPayload)).1.frame = stFieldZero.frame ∧
     (decodeStep false Output.DECODED stFieldZero
          (DataUnit.ldPicture okPayload)).1.pic = stFieldZero.pic + 1 ∧
     (decodeStep false Output.DECODED stFieldZero
          (DataUnit.ldPicture okPayload)).1.pendingFrame =
        some ⟨stFieldZero.height, stFieldZero.width,
          stFieldZero.chromaFormat, stFieldZero.topFieldFirst⟩ ∧
     (decodeStep false Output.DECODED stFieldZero
          (DataUnit.ldPicture okPayload)).2.2 = StepCtl.next) ∧
    ((decodeStep false Output.DECODED stFieldOne
          (DataUnit.ldPicture okPayload)).2.1.filter Ev.isFileWrite =
        [Ev.writeDecoded stFieldOne.bytes stFieldOne.lumaDepth
          stFieldOne.chromaDepth] ∧
     (decodeStep false Output.DECODED stFieldOne
          (DataUnit.ldPicture okPayload)).1.frame = stFieldOne.frame + 1 ∧
     (decodeStep false Output.DECODED stFieldOne
          (DataUnit.ldPicture okPayload)).1.pic = 0 ∧
     (decodeStep false Output.DECODED stFieldOne
          (DataUnit.ldPicture okPayload)).2.2 = StepCtl.next) :=
  ⟨(interlaced_field_accumulation false stFieldZero okPayload rfl rfl
      rfl).1 rfl,
   (interlaced_field_accumulation false stFieldOne okPayload rfl rfl
      rfl).2 ⟨0, 0, ColourFormat.UNKNOWN, false⟩ (by decide) rfl⟩
